import Mathlib

/-!
# Verification of the MCP test server pipeline (`src/app.py`)

A shallow embedding of the parts of `app.py` the specification talks about:
the JSON-RPC method router (`MCPServer.handle_request`), the tool dispatcher
(`MCPServer.handle_call_tool`), the two transports' progress callbacks, the
stream-composer loop shared by the `/mcp` endpoint (`stream_response`) and the
SSE per-session loop (`event_generator`), the SSE session registry with its
side-channel POST endpoint (`receive_message`), and the `/guardrail` endpoint.

Python values that flow through the handlers are modelled by `JVal`; dicts that
are used as JSON objects are modelled by association lists so that presence and
absence of a key are distinguishable.  Python operations that can raise
(`+`, `*`, `min`, `.replace`, `in`) are modelled in `Except String`; the exact
wording of the CPython exception messages is abbreviated, only the fact that an
exception is raised (and is turned into a `-32603` JSON-RPC error) matters.
-/

set_option maxRecDepth 4000

namespace MCPApp

/-- A JSON / Python value as the handlers in `app.py` see it.  `jnull` stands
for both JSON `null` and Python `None` (which `dict.get` also returns for an
absent key). -/
inductive JVal where
  | jnull
  | jnum (n : Int)
  | jstr (s : String)
  | jbool (b : Bool)
  deriving DecidableEq, Repr

/-- Python type name of a value, used in abbreviated exception messages. -/
def pyType : JVal → String
  | .jnull => "NoneType"
  | .jnum _ => "int"
  | .jstr _ => "str"
  | .jbool _ => "bool"

/-- Python `str(v)`, as applied by an f-string interpolation. -/
def pyStr : JVal → String
  | .jnull => "None"
  | .jnum n => toString n
  | .jstr s => s
  | .jbool b => if b then "True" else "False"

/-- Lookup of a key in a JSON object (association list): `d[k]` presence. -/
def lookupKey (l : List (String × JVal)) (k : String) : Option JVal :=
  (l.find? (fun kv => kv.1 = k)).map Prod.snd

/-- Python `d.get(k, default)`. -/
def pyGet (l : List (String × JVal)) (k : String) (d : JVal) : JVal :=
  (lookupKey l k).getD d

/-- Python numeric coercion for arithmetic: ints are ints, bools count as 0/1. -/
def pyNum? : JVal → Option Int
  | .jnum n => some n
  | .jbool b => some (if b then 1 else 0)
  | _ => none

/-- Python `a + b` on the values our handlers can receive: numbers add,
strings concatenate, anything else raises `TypeError`. -/
def pyAdd (a b : JVal) : Except String JVal :=
  match a, b with
  | .jstr x, .jstr y => .ok (.jstr (x ++ y))
  | _, _ =>
    match pyNum? a, pyNum? b with
    | some x, some y => .ok (.jnum (x + y))
    | _, _ => .error ("TypeError: unsupported operand types for +: "
        ++ pyType a ++ " and " ++ pyType b)

/-- Python string repetition `s * n` (negative counts give the empty string). -/
def strRepeat (s : String) (n : Int) : String :=
  String.join (List.replicate n.toNat s)

/-- Python `a * b`: numbers multiply, `str * int` (either order) repeats,
anything else raises `TypeError`. -/
def pyMul (a b : JVal) : Except String JVal :=
  match pyNum? a, pyNum? b with
  | some x, some y => .ok (.jnum (x * y))
  | _, _ =>
    match a, b with
    | .jstr s, _ =>
      match pyNum? b with
      | some n => .ok (.jstr (strRepeat s n))
      | none => .error ("TypeError: cannot multiply str by " ++ pyType b)
    | _, .jstr s =>
      match pyNum? a with
      | some n => .ok (.jstr (strRepeat s n))
      | none => .error ("TypeError: cannot multiply " ++ pyType a ++ " by str")
    | _, _ => .error ("TypeError: unsupported operand types for *: "
        ++ pyType a ++ " and " ++ pyType b)

/-- Coercion used by `min(steps, 6)`: comparing a non-number with an int
raises `TypeError` in Python 3. -/
def pyToInt : JVal → Except String Int
  | .jnum n => .ok n
  | .jbool b => .ok (if b then 1 else 0)
  | v => .error ("TypeError: comparison not supported between " ++ pyType v ++ " and int")

/-- Python `v.replace(old, new)`: only strings have `.replace`. -/
def pyReplace (v : JVal) (old new : String) : Except String String :=
  match v with
  | .jstr s => .ok (s.replace old new)
  | _ => .error ("AttributeError: " ++ pyType v ++ " object has no attribute replace")

/-- Python `needle in s` for strings (substring test). -/
def strContains (s needle : String) : Bool :=
  (s.splitOn needle).length ≥ 2

/-- Python `v[:200]` as evaluated by the guardrail's logging f-string:
slicing is defined on strings (by characters) and raises `TypeError` for any
other payload type. -/
def pySliceStr : JVal → Except String String
  | .jstr s => .ok (s.take 200)
  | v => .error ("TypeError: " ++ pyType v ++ " object is not subscriptable")

/-- Does a value carry a Python `str`? -/
def JVal.isStr : JVal → Bool
  | .jstr _ => true
  | _ => false

/-! ## Data model: messages, responses, notifications, tool descriptors -/

/-- The `params` object of an inbound JSON-RPC message, restricted to the keys
the router reads: `params.get("name")`, `params.get("arguments", {})` and
`params.get("_meta", {})`.  Defaults model an absent key. -/
structure Params where
  name : JVal := .jnull
  arguments : List (String × JVal) := []
  meta : List (String × JVal) := []
  deriving DecidableEq, Repr

/-- An inbound JSON-RPC message.  `id` is the value of `message.get("id")`
(`jnull` both for an absent key and an explicit `null`, exactly as Python's
`dict.get` conflates them), likewise `method`. -/
structure Message where
  id : JVal := .jnull
  method : JVal := .jnull
  params : Params := {}
  deriving DecidableEq, Repr

/-- A JSON-RPC error object `{code, message}`. -/
structure RError where
  code : Int
  message : String
  deriving DecidableEq, Repr

/-- A tool descriptor from `MCPServer.__init__`; the human-readable
descriptions and per-property schemas are elided, the declared `required`
property names are kept verbatim. -/
structure ToolDesc where
  name : String
  required : List String
  deriving DecidableEq, Repr

/-- The static tool registry built in `MCPServer.__init__`. -/
def mcpTools : List ToolDesc :=
  [⟨"add_numbers", ["a", "b"]⟩,
   ⟨"multiply_numbers", ["x", "y"]⟩,
   ⟨"get_greeting", ["name"]⟩,
   ⟨"search_with_progress", ["query"]⟩]

/-- The `result` member of a JSON-RPC response.  `contentText t` stands for
the tool payload `\x7b"content": [\x7b"type": "text", "text": t\x7d]\x7d`;
`initResult` for the static `initialize` payload (protocol `2024-11-05`,
server `test-mcp-server` `1.0.0`); `toolList` for the `tools/list` payload. -/
inductive RResult where
  | contentText (text : String)
  | initResult
  | toolList (ts : List ToolDesc)
  deriving DecidableEq, Repr

/-- A JSON-RPC response dict: the `id` key plus at most one of the `result` /
`error` keys (an absent key is `none`). -/
structure Response where
  id : JVal
  result : Option RResult
  error : Option RError
  deriving DecidableEq, Repr

/-- One call of the progress callback made by a running tool handler:
the positional data `progress`, `total`, `message` plus the pass-through
`progress_token`. -/
structure ProgressCall where
  progress : Int
  total : Int
  message : String
  token : JVal
  deriving DecidableEq, Repr

/-- A `notifications/progress` message as put on the out queue by a transport's
progress callback.  The constant members `jsonrpc: "2.0"` and
`method: "notifications/progress"` are implicit; `params` is kept as an
association list so key presence is observable. -/
structure Notification where
  params : List (String × JVal)
  deriving DecidableEq, Repr

/-! ## The tool handlers (`MCPServer.handle_call_tool`) -/

/-- The six `progress_messages` literals of the `search_with_progress`
branch; only the first interpolates the query. -/
def progressMessages (q : String) : List String :=
  ["🔍 **검색 시작** - `" ++ q ++ "` 키워드 수신",
   "📝 **키워드 분석 중** - 형태소 분석 및 토큰화 진행",
   "🗄️ **데이터베이스 조회 중** - 인덱스 탐색 수행",
   "⚙️ **결과 필터링 중** - 관련도 기반 필터 적용",
   "📊 **결과 정렬 중** - 스코어링 및 랭킹 처리",
   "✅ **최종 결과 준비 중** - 응답 포맷팅 완료 단계"]

/-- One entry of the `dummy_results` list. -/
structure SearchHit where
  title : String
  url : String
  snippet : String
  relevance : Int
  category : String
  deriving DecidableEq, Repr

/-- The `dummy_results` literals: `q` is `str(query)` as interpolated by the
f-strings and `qd` is `query.replace(" ", "-")`. -/
def dummyResults (q qd : String) : List SearchHit :=
  [⟨q ++ " 개요 및 핵심 개념 정리",
    "https://example.com/docs/" ++ qd ++ "-overview",
    q ++ "의 기본 개념부터 심화 내용까지 체계적으로 정리한 문서입니다. 입문자부터 숙련자까지 참고할 수 있습니다.",
    98, "문서"⟩,
   ⟨q ++ " 실전 활용 가이드 (2024)",
    "https://example.com/guide/" ++ qd ++ "-practical",
    "실무에서 " ++ q ++ "를 효과적으로 활용하는 방법을 단계별로 설명합니다. 다양한 사례와 코드 예제를 포함합니다.",
    95, "가이드"⟩,
   ⟨q ++ " 관련 자주 묻는 질문 (FAQ)",
    "https://example.com/faq/" ++ qd,
    q ++ "에 대해 가장 많이 질문되는 항목들을 모아 명확하게 답변한 FAQ 모음입니다.",
    89, "FAQ"⟩,
   ⟨q ++ " 성능 벤치마크 및 비교 분석",
    "https://example.com/benchmark/" ++ qd,
    "다양한 환경에서 " ++ q ++ "의 성능을 측정하고 대안 솔루션과 비교 분석한 리포트입니다.",
    82, "분석"⟩,
   ⟨q ++ " 최신 업데이트 및 변경사항",
    "https://example.com/changelog/" ++ qd,
    q ++ "의 최신 버전 릴리즈 노트와 주요 변경사항, 마이그레이션 가이드를 제공합니다.",
    76, "릴리즈"⟩,
   ⟨q ++ " 커뮤니티 토론 및 베스트 프랙티스",
    "https://example.com/community/" ++ qd,
    "개발자 커뮤니티에서 공유된 " ++ q ++ " 관련 팁, 트릭, 베스트 프랙티스를 정리했습니다.",
    71, "커뮤니티"⟩]

/-- One formatted `result_entries` item of the final search message. -/
def resultEntry (i : Nat) (r : SearchHit) : String :=
  "#### " ++ toString (i + 1) ++ ". " ++ r.title ++ "\n"
    ++ "- 🏷️ **카테고리**: `" ++ r.category ++ "` | 📈 **관련도**: "
    ++ toString r.relevance ++ "%\n"
    ++ "- 🔗 **URL**: [" ++ r.url ++ "](" ++ r.url ++ ")\n"
    ++ "- 💬 " ++ r.snippet

/-- The final markdown `message` assembled by `search_with_progress`. -/
def searchMessage (q : String) (result_count elapsed top_rel : Int)
    (entries : List String) : String :=
  "## 🎉 검색 완료\n\n"
    ++ "> **`" ++ q ++ "`** 키워드에 대해 **" ++ toString result_count
    ++ "건**의 결과를 찾았습니다.\n\n"
    ++ "| 항목 | 값 |\n"
    ++ "|------|----|\n"
    ++ "| 🔎 검색어 | `" ++ q ++ "` |\n"
    ++ "| 📄 결과 수 | **" ++ toString result_count ++ "건** |\n"
    ++ "| ⏱️ 소요 시간 | **" ++ toString elapsed ++ "초** |\n"
    ++ "| 📊 최고 관련도 | **" ++ toString top_rel ++ "%** |\n\n"
    ++ "---\n\n"
    ++ "### 📋 검색 결과\n\n"
    ++ String.intercalate "\n\n" entries
    ++ "\n\n---\n\n"
    ++ "*💡 더 정확한 결과를 위해 검색어를 구체적으로 입력해 보세요.*"

/-- The `search_with_progress` branch of `handle_call_tool`, lines 181-286:
coerce `steps`, cap at the six message literals, build the dummy results
(this is where a non-string query raises, before any progress is emitted),
then run the progress loop — each iteration calls the progress callback when
one was supplied — and finally assemble the result message.  The value is the
list of progress-callback calls made, in order, together with the `try`-block
outcome. -/
def searchBranch (request_id query stepsV : JVal) (hasCallback : Bool)
    (progress_token : JVal) : List ProgressCall × Except String Response :=
  match pyToInt stepsV with
  | .error e => ([], .error e)
  | .ok steps =>
    let total_steps : Int := min steps 6
    match pyReplace query " " "-" with
    | .error e => ([], .error e)
    | .ok qd =>
      let q := pyStr query
      let msgs := progressMessages q
      let calls :=
        if hasCallback then
          (List.range total_steps.toNat).map
            (fun i => ⟨(i : Int) + 1, total_steps + 1, msgs.getD i "", progress_token⟩)
        else []
      let dummy := dummyResults q qd
      let result_count : Int := min total_steps 6
      let entries :=
        (List.range result_count.toNat).map
          (fun i => resultEntry i (dummy.getD i ⟨"", "", "", 0, ""⟩))
      let top := (dummy.getD 0 ⟨"", "", "", 0, ""⟩).relevance
      let msg := searchMessage q result_count total_steps top entries
      (calls, .ok ⟨request_id, some (.contentText msg), none⟩)

/-- The `try` block of `MCPServer.handle_call_tool` (lines 159-309): the four
tool branches plus the unknown-tool `-32601` return.  The first component is
the sequence of progress-callback calls the execution makes. -/
def callToolBody (request_id tool_name : JVal) (arguments : List (String × JVal))
    (hasCallback : Bool) (progress_token : JVal) :
    List ProgressCall × Except String Response :=
  if tool_name = .jstr "add_numbers" then
    let a := pyGet arguments "a" (.jnum 0)
    let b := pyGet arguments "b" (.jnum 0)
    match pyAdd a b with
    | .error e => ([], .error e)
    | .ok result =>
      ([], .ok ⟨request_id,
        some (.contentText (pyStr a ++ " + " ++ pyStr b ++ " = " ++ pyStr result)),
        none⟩)
  else if tool_name = .jstr "multiply_numbers" then
    let x := pyGet arguments "x" (.jnum 0)
    let y := pyGet arguments "y" (.jnum 0)
    match pyMul x y with
    | .error e => ([], .error e)
    | .ok result =>
      ([], .ok ⟨request_id,
        some (.contentText (pyStr x ++ " × " ++ pyStr y ++ " = " ++ pyStr result)),
        none⟩)
  else if tool_name = .jstr "get_greeting" then
    let nm := pyGet arguments "name" (.jstr "Guest")
    let language := pyGet arguments "language" (.jstr "ko")
    let msg :=
      if language = .jstr "ko" then "안녕하세요, " ++ pyStr nm ++ "님!"
      else "Hello, " ++ pyStr nm ++ "!"
    ([], .ok ⟨request_id, some (.contentText msg), none⟩)
  else if tool_name = .jstr "search_with_progress" then
    searchBranch request_id (pyGet arguments "query" (.jstr ""))
      (pyGet arguments "steps" (.jnum 5)) hasCallback progress_token
  else
    ([], .ok ⟨request_id, none,
      some ⟨-32601, "Unknown tool: " ++ pyStr tool_name⟩⟩)

/-- `MCPServer.handle_call_tool` (lines 149-319): run the `try` block and
convert any exception into the `-32603` JSON-RPC error response. -/
def handle_call_tool (request_id tool_name : JVal)
    (arguments : List (String × JVal)) (hasCallback : Bool)
    (progress_token : JVal) : List ProgressCall × Response :=
  let r := callToolBody request_id tool_name arguments hasCallback progress_token
  match r.2 with
  | .ok resp => (r.1, resp)
  | .error e => (r.1, ⟨request_id, none, some ⟨-32603, "Tool execution error: " ++ e⟩⟩)

/-! ## The JSON-RPC method router (`MCPServer.handle_request`) -/

/-- `MCPServer.handle_initialize` (lines 121-136): the static payload. -/
def handle_initialize (request_id : JVal) : Response :=
  ⟨request_id, some .initResult, none⟩

/-- `MCPServer.handle_list_tools` (lines 138-147). -/
def handle_list_tools (request_id : JVal) : Response :=
  ⟨request_id, some (.toolList mcpTools), none⟩

/-- `MCPServer.handle_request` (lines 321-354).  The boolean says whether the
caller supplied a progress callback (both transports do); the first component
is the sequence of progress-callback calls made during handling, the second
is the return value (`none` models Python `None`). -/
def handle_request (message : Message) (hasCallback : Bool) :
    List ProgressCall × Option Response :=
  let method := message.method
  let request_id := message.id
  let progress_token := pyGet message.params.meta "progressToken" .jnull
  if method = .jstr "initialize" then
    ([], some ( handle_initialize request_id))
  else if method = .jstr "tools/list" then
    ([], some (handle_list_tools request_id))
  else if method = .jstr "tools/call" then
    let r := handle_call_tool request_id message.params.name
      message.params.arguments hasCallback progress_token
    (r.1, some r.2)
  else if method = .jstr "notifications/initialized" then
    ([], none)
  else
    ([], some ⟨request_id, none,
      some ⟨-32601, "Method not found: " ++ pyStr method⟩⟩)

/-! ## The two transports' progress callbacks -/

/-- The `/mcp` transport's `progress_callback` (lines 415-428): build
`params` with `progress`, `total`, `message`, then add a `progressToken` key
only when the token is not `None`. -/
def mcpCallback (pc : ProgressCall) : Notification :=
  let base : List (String × JVal) :=
    [("progress", .jnum pc.progress), ("total", .jnum pc.total),
     ("message", .jstr pc.message)]
  ⟨if pc.token ≠ .jnull then base ++ [("progressToken", pc.token)] else base⟩

/-- Python `del d[k]` on an association-list object. -/
def delKey (l : List (String × JVal)) (k : String) : List (String × JVal) :=
  l.filter (fun kv => kv.1 ≠ k)

/-- The SSE transport's `progress_callback` (lines 543-561): build `params`
with a `progressToken` key up front, then delete that key when the token is
`None`. -/
def sseCallback (pc : ProgressCall) : Notification :=
  let params : List (String × JVal) :=
    [("progressToken", pc.token), ("progress", .jnum pc.progress),
     ("total", .jnum pc.total), ("message", .jstr pc.message)]
  ⟨if pc.token = .jnull then delKey params "progressToken" else params⟩

/-! ## The stream-composer loop

`stream_response` (lines 437-462) and the inner loop of `event_generator`
(lines 571-608) run the identical algorithm: start `handle_request` as a
background task that enqueues notifications onto an `asyncio.Queue` through a
progress callback `cb`, and concurrently loop: dequeue-one-with-timeout, emit
it; then check `task.done()`; when done, drain the rest of the queue, emit the
final response if not `None`, and stop.  The cooperative interleaving of the
handler task with the composer loop is made explicit: a schedule of booleans
picks at each step whether the handler advances (`true`) or the composer runs
its next atomic phase (`false`).  The post-`done` drain is a single atomic
step because the finished task can enqueue nothing further. -/

/-- One event on the outbound SSE stream: a serialized progress notification
or the serialized final response, each framed as a `message` event. -/
inductive OutEvent where
  | progressEv (n : Notification)
  | responseEv (r : Response)
  deriving DecidableEq, Repr

/-- Program counter of the composer loop: about to attempt
`wait_for(queue.get(), 0.1)`, about to test `task.done()`, or terminated. -/
inductive CPhase where
  | poll
  | check
  | stopped
  deriving DecidableEq, Repr

/-- An invocation's composer state: `pending` are the progress-callback calls
the handler task has not yet made, `done` is `task.done()`, `queue` is the
`asyncio.Queue` contents (head = oldest), `out` the events emitted so far. -/
structure CState where
  pending : List ProgressCall
  done : Bool
  queue : List Notification
  out : List OutEvent
  phase : CPhase
  deriving DecidableEq, Repr

/-- Initial composer state for an invocation whose handler will make the given
progress-callback calls. -/
def initC (calls : List ProgressCall) : CState :=
  ⟨calls, false, [], [], .poll⟩

/-- The handler task advancing by one step: make the next progress-callback
call (enqueue through `cb`), or complete, setting `task.done()`. -/
def handlerStep (cb : ProgressCall → Notification) (s : CState) : CState :=
  if s.done then s
  else
    match s.pending with
    | c :: rest => { s with pending := rest, queue := s.queue ++ [cb c] }
    | [] => { s with done := true }

/-- One atomic phase of the composer loop.  `poll`: `wait_for(queue.get(),
0.1)` either dequeues-and-emits one notification or times out.  `check`:
`task.done()`; when done, drain the whole queue in order, then emit the final
response when it is not `None`, and stop; otherwise go around the loop. -/
def composerStep (final : Option Response) (s : CState) : CState :=
  match s.phase with
  | .poll =>
    match s.queue with
    | n :: t => { s with queue := t, out := s.out ++ [.progressEv n], phase := .check }
    | [] => { s with phase := .check }
  | .check =>
    if s.done then
      { s with
        out := s.out ++ s.queue.map .progressEv ++ (final.map .responseEv).toList,
        queue := [], phase := .stopped }
    else { s with phase := .poll }
  | .stopped => s

/-- One scheduled step: the handler task runs, or the composer runs. -/
def cstep (cb : ProgressCall → Notification) (final : Option Response)
    (s : CState) : Bool → CState
  | true => handlerStep cb s
  | false => composerStep final s

/-- Run the composer under a given cooperative schedule. -/
def crun (cb : ProgressCall → Notification) (final : Option Response)
    (sched : List Bool) (s : CState) : CState :=
  sched.foldl (cstep cb final) s

/-- The full emitted progress-event sequence for a list of handler calls. -/
def emittedAll (cb : ProgressCall → Notification) (calls : List ProgressCall) :
    List OutEvent :=
  calls.map (fun c => OutEvent.progressEv (cb c))

/-- The trailing response event: one event when the router returned a
response, nothing when it returned `None`. -/
def optRespEvents (final : Option Response) : List OutEvent :=
  (final.map OutEvent.responseEv).toList

/-! ## The SSE session registry and the side-channel POST endpoint -/

/-- The process-wide registries of `app.py` (lines 24-29):
`session_queues` (inbound JSON-RPC messages per session),
`session_response_queues` (declared in the source but never used), and
`session_sse_queues` (per-session progress/SSE output queue). -/
structure ServerState where
  session_queues : List (String × List Message)
  session_response_queues : List (String × List Message)
  session_sse_queues : List (String × List Notification)
  deriving DecidableEq, Repr

/-- The empty registries at process start. -/
def initServer : ServerState := ⟨[], [], []⟩

/-- Key set of an association list. -/
def keysOf {α : Type} (l : List (String × α)) : List String :=
  l.map Prod.fst

/-- Python dict assignment `d[k] = v` on an association list. -/
def setKey {α : Type} (l : List (String × α)) (k : String) (v : α) :
    List (String × α) :=
  if k ∈ keysOf l then l.map (fun kv => if kv.1 = k then (k, v) else kv)
  else l ++ [(k, v)]

/-- The cleanup idiom `if k in d: del d[k]` on an association list. -/
def removeKey {α : Type} (l : List (String × α)) (k : String) :
    List (String × α) :=
  if k ∈ keysOf l then l.filter (fun kv => kv.1 ≠ k) else l

/-- `d[k].put(v)`: append to the queue stored under `k`, other keys
untouched. -/
def enqueueKey {α : Type} (l : List (String × List α)) (k : String) (v : α) :
    List (String × List α) :=
  l.map (fun kv => if kv.1 = k then (kv.1, kv.2 ++ [v]) else kv)

/-- `d[k].get()`: drop the head of the queue stored under `k`. -/
def popKey {α : Type} (l : List (String × List α)) (k : String) :
    List (String × List α) :=
  l.map (fun kv => if kv.1 = k then (kv.1, kv.2.tail) else kv)

/-- HTTP outcome of the `/message/{session_id}` endpoint: the
`202 accepted` body or an `HTTPException` with status and detail. -/
inductive HttpResult where
  | accepted
  | httpError (status : Nat) (detail : String)
  deriving DecidableEq, Repr

/-- `receive_message` (lines 631-675): parse the body as JSON (invalid JSON
raises 400 before anything else), then require the session id to be registered
(else 404 `Session not found`), then enqueue the parsed message on that
session's inbound queue and reply `202 accepted` immediately.  The body is
passed as its parse outcome. -/
def receive_message (st : ServerState) (session_id : String)
    (body : Except String Message) : ServerState × HttpResult :=
  match body with
  | .error e => (st, .httpError 400 ("Invalid JSON: " ++ e))
  | .ok message =>
    if session_id ∈ keysOf st.session_queues then
      ({ st with session_queues := enqueueKey st.session_queues session_id message },
       .accepted)
    else (st, .httpError 404 "Session not found")

/-- The registry-touching actions of an execution: `connect` is the queue
creation on SSE connect (lines 515-518, both dict assignments happen with no
intervening await, hence one atomic step), `cleanup` is the `finally` block
(lines 620-626) run on cancellation, internal error or normal close, `post`
is the `/message/{session_id}` endpoint, and the remaining actions are the
queue reads/writes of `event_generator` and its progress callback, which touch
values but never keys. -/
inductive SStep where
  | connect (sid : String)
  | cleanup (sid : String)
  | post (sid : String) (body : Except String Message)
  | takeInbound (sid : String)
  | putProgress (sid : String) (n : Notification)
  | takeProgress (sid : String)

/-- Effect of one registry-touching action on the process state. -/
def applyS (st : ServerState) : SStep → ServerState
  | .connect sid =>
    { st with session_queues := setKey st.session_queues sid [],
              session_sse_queues := setKey st.session_sse_queues sid [] }
  | .cleanup sid =>
    { st with session_queues := removeKey st.session_queues sid,
              session_sse_queues := removeKey st.session_sse_queues sid }
  | .post sid body => (receive_message st sid body).1
  | .takeInbound sid =>
    { st with session_queues := popKey st.session_queues sid }
  | .putProgress sid n =>
    { st with session_sse_queues := enqueueKey st.session_sse_queues sid n }
  | .takeProgress sid =>
    { st with session_sse_queues := popKey st.session_sse_queues sid }

/-- Run a whole execution trace from process start. -/
def runS (tr : List SStep) : ServerState :=
  tr.foldl applyS initServer

/-! ## The `/guardrail` endpoint -/

/-- A `/guardrail` request body, restricted to the keys the endpoint reads:
`payload.get("source", "UNKNOWN")` and `payload.get("text", "")`.  The
optional `file` member is modelled as absent (its logging is guarded by
`if file_info:`), and `metadata` is only dumped back to JSON, which cannot
raise for a JSON-decoded value. -/
structure GPayload where
  source : JVal := .jstr "UNKNOWN"
  text : JVal := .jstr ""
  deriving DecidableEq, Repr

/-- A `/guardrail` response body; `blocked_reasons` holds the `reason` value
of the `blocked_reasons` object when the key is present. -/
structure GResponse where
  action : String
  is_safe : Bool
  blocked_reasons : Option String
  deriving DecidableEq, Repr

/-- The blocked FILE response (even global file-call count). -/
def fileBlockedResp : GResponse :=
  ⟨"GUARDRAIL_INTERVENED", false, some "파일 가드레일 차단 (simulated failure)"⟩

/-- The safe response. -/
def safeResp : GResponse := ⟨"NONE", true, none⟩

/-- The blocked INPUT/OUTPUT response for text containing 아이유 (the quotes
of the source literal are elided). -/
def iuBlockedResp : GResponse :=
  ⟨"GUARDRAIL_INTERVENED", false, some "아이유 관련 내용은 허용되지 않습니다."⟩

/-- `guardrail_endpoint` (lines 694-785) acting on the module-global
`_guardrail_file_count`.  The logging line 734 evaluates `text[:200]` before
any dispatch on `source`, so a non-string `text` raises `TypeError` there
(HTTP 500) without touching the counter.  Past that, a `FILE` request first
increments the counter and is blocked exactly when the new count is even; any
other source leaves the counter alone and is blocked when the text contains
아이유. -/
def guardrail_endpoint (count : Nat) (p : GPayload) :
    Nat × Except String GResponse :=
  match pySliceStr p.text with
  | .error e => (count, .error e)
  | .ok _ =>
    if p.source = .jstr "FILE" then
      let c := count + 1
      if c % 2 = 0 then (c, .ok fileBlockedResp) else (c, .ok safeResp)
    else
      match p.text with
      | .jstr s =>
        if strContains s "아이유" then (count, .ok iuBlockedResp)
        else (count, .ok safeResp)
      | v => (count, .error ("TypeError: argument of type " ++ pyType v
          ++ " is not a container"))

/-- Process a sequence of `/guardrail` requests, threading the global
counter; returns the response list and the final counter. -/
def runG (count : Nat) : List GPayload → List (Except String GResponse) × Nat
  | [] => ([], count)
  | p :: ps =>
    let r := guardrail_endpoint count p
    let rest := runG r.1 ps
    (r.2 :: rest.1, rest.2)

/-- Number of `source == "FILE"` requests in a list. -/
def fileCount (ps : List GPayload) : Nat :=
  (ps.filter (fun p => p.source = .jstr "FILE")).length

/-- The request of claim C2: a `tools/call` of `search_with_progress` with
`arguments.steps = 3` and `params._meta.progressToken` present with value
`tok`. -/
def searchCallMsg (tok : JVal) : Message :=
  { id := .jnum 1, method := .jstr "tools/call",
    params := { name := .jstr "search_with_progress",
                arguments := [("steps", .jnum 3)],
                meta := [("progressToken", tok)] } }

/-- A plain `notifications/initialized` notification message. -/
def initializedMsg : Message :=
  { id := .jnum 2, method := .jstr "notifications/initialized", params := {} }

/-- A message whose `id` key is absent and whose method is not
`notifications/initialized`. -/
def nullIdMsg : Message := { method := .jstr "tools/list" }

/-- A `tools/call` of `search_with_progress` with one step and no
`_meta.progressToken` key. -/
def searchNoTokenMsg : Message :=
  { id := .jnum 5, method := .jstr "tools/call",
    params := { name := .jstr "search_with_progress",
                arguments := [("steps", .jnum 1)] } }

/-- Three `/guardrail` requests in a row: FILE, INPUT, FILE. -/
def guardrailDemoCalls : List GPayload :=
  [⟨.jstr "FILE", .jstr ""⟩, ⟨.jstr "INPUT", .jstr "hi"⟩, ⟨.jstr "FILE", .jstr ""⟩]

/-- Invariant of a composer run for an invocation whose handler makes the
calls `calls` and returns `final`: the task is done only once every call has
been made; a stopped composer implies a done task; while running, the events
already emitted, the queued notifications and the calls still to be made
partition the full emission sequence in order; once stopped, everything has
been emitted in order with the response last and the queue is empty. -/
def InvC (cb : ProgressCall → Notification) (calls : List ProgressCall)
    (final : Option Response) (s : CState) : Prop :=
  (s.done = true → s.pending = []) ∧
  (s.phase = .stopped → s.done = true) ∧
  (if s.phase = .stopped
   then s.out = emittedAll cb calls ++ optRespEvents final ∧ s.queue = []
   else s.out ++ s.queue.map OutEvent.progressEv ++ emittedAll cb s.pending
        = emittedAll cb calls)

theorem invC_init (cb : ProgressCall → Notification) (calls : List ProgressCall)
    (final : Option Response) : InvC cb calls final (initC calls) := by
  refine ⟨fun h => by simp [initC] at h, fun h => by simp [initC] at h, ?_⟩
  simp [initC, emittedAll]

theorem invC_step (cb : ProgressCall → Notification) (calls : List ProgressCall)
    (final : Option Response) (s : CState) (w : Bool)
    (h : InvC cb calls final s) : InvC cb calls final (cstep cb final s w) := by
  obtain ⟨pend, dn, qu, ot, ph⟩ := s
  obtain ⟨h1, h2, h3⟩ := h
  cases w with
  | true =>
    show InvC cb calls final (handlerStep cb ⟨pend, dn, qu, ot, ph⟩)
    cases dn with
    | true => simpa [handlerStep] using ⟨h1, h2, h3⟩
    | false =>
      have hns : ¬ ph = CPhase.stopped := by
        intro hst
        exact absurd (h2 (by simpa using hst)) (by simp)
      cases pend with
      | cons c rest =>
        rw [if_neg (by simpa using hns)] at h3
        refine ⟨by simp [handlerStep], by simp [handlerStep]; exact fun hst => absurd hst hns, ?_⟩
        simp only [handlerStep, Bool.false_eq_true, if_false]
        rw [if_neg (by simpa using hns)]
        simp only [emittedAll, List.map_cons, List.map_append, List.map_nil] at h3 ⊢
        rw [← h3]; simp
      | nil =>
        rw [if_neg (by simpa using hns)] at h3
        refine ⟨by simp [handlerStep], by simp [handlerStep], ?_⟩
        simp only [handlerStep, Bool.false_eq_true, if_false]
        rw [if_neg (by simpa using hns)]
        simpa [emittedAll] using h3
  | false =>
    show InvC cb calls final (composerStep final ⟨pend, dn, qu, ot, ph⟩)
    cases ph with
    | poll =>
      rw [if_neg (by simp)] at h3
      cases qu with
      | cons n t =>
        refine ⟨by simpa [composerStep] using h1, by simp [composerStep], ?_⟩
        simp only [composerStep]
        rw [if_neg (by simp)]
        simp only [List.map_cons] at h3 ⊢
        rw [← h3]; simp
      | nil =>
        refine ⟨by simpa [composerStep] using h1, by simp [composerStep], ?_⟩
        simp only [composerStep]
        rw [if_neg (by simp)]
        simpa using h3
    | check =>
      rw [if_neg (by simp)] at h3
      cases dn with
      | true =>
        have hpend : pend = [] := h1 rfl
        subst hpend
        simp only [emittedAll, List.map_nil, List.append_nil] at h3
        refine ⟨by simp [composerStep], by simp [composerStep], ?_⟩
        simp only [composerStep, if_true]
        refine ⟨?_, trivial⟩
        rw [optRespEvents, emittedAll, ← h3]
      | false =>
        refine ⟨by simp [composerStep], by simp [composerStep], ?_⟩
        simp only [composerStep, Bool.false_eq_true, if_false]
        rw [if_neg (by simp)]
        simpa using h3
    | stopped =>
      have hcs : composerStep final ⟨pend, dn, qu, ot, .stopped⟩
          = ⟨pend, dn, qu, ot, .stopped⟩ := by simp [composerStep]
      rw [hcs]; exact ⟨h1, h2, h3⟩

theorem invC_run (cb : ProgressCall → Notification) (calls : List ProgressCall)
    (final : Option Response) (sched : List Bool) (s : CState)
    (h : InvC cb calls final s) : InvC cb calls final (crun cb final sched s) := by
  induction sched generalizing s with
  | nil => simpa [crun] using h
  | cons w ws ih =>
    rw [crun, List.foldl_cons]
    exact ih _ (invC_step cb calls final s w h)

/-- The composer's output characterization, shared by several claims: a
terminated run has emitted every notification in FIFO enqueue order, has
drained the queue to empty, and has emitted the final response (when not
`None`) as the very last event. -/
theorem crun_spec (cb : ProgressCall → Notification) (calls : List ProgressCall)
    (final : Option Response) (sched : List Bool)
    (h : (crun cb final sched (initC calls)).phase = .stopped) :
    (crun cb final sched (initC calls)).out
        = emittedAll cb calls ++ optRespEvents final
    ∧ (crun cb final sched (initC calls)).queue = [] := by
  obtain ⟨h1, h2, h3⟩ := invC_run cb calls final sched (initC calls)
    (invC_init cb calls final)
  rw [if_pos h] at h3
  exact h3

/-- C1: for every single JSON-RPC invocation processed by either transport
adapter — the `/mcp` stream composer `stream_response` and the SSE per-session
composer loop of `event_generator` both run the composer `crun`, instantiated
with their respective progress callback `cb` — and under every cooperative
schedule under which the composer loop terminates, the progress notifications
are emitted on the outbound event stream in the FIFO order the handler
enqueued them, the progress queue is fully drained to empty after the
background task completes, and the final response (when not `None`) is the
last event emitted for that invocation. -/
theorem invocation_stream_fifo_drained_response_last
    (cb : ProgressCall → Notification) (calls : List ProgressCall)
    (final : Option Response) (sched : List Bool)
    (h : (crun cb final sched (initC calls)).phase = .stopped) :
    (crun cb final sched (initC calls)).out
        = emittedAll cb calls ++ optRespEvents final
    ∧ (crun cb final sched (initC calls)).queue = [] :=
  crun_spec cb calls final sched h

theorem invocation_stream_fifo_drained_response_last_witness :
    (crun mcpCallback (some ⟨.jnum 7, some (.contentText "ok"), none⟩)
        [true, true, true, false, false]
        (initC [⟨1, 3, "a", .jnull⟩, ⟨2, 3, "b", .jnull⟩])).phase = .stopped
    ∧ ((crun mcpCallback (some ⟨.jnum 7, some (.contentText "ok"), none⟩)
          [true, true, true, false, false]
          (initC [⟨1, 3, "a", .jnull⟩, ⟨2, 3, "b", .jnull⟩])).out
        = emittedAll mcpCallback [⟨1, 3, "a", .jnull⟩, ⟨2, 3, "b", .jnull⟩]
          ++ optRespEvents (some ⟨.jnum 7, some (.contentText "ok"), none⟩)
      ∧ (crun mcpCallback (some ⟨.jnum 7, some (.contentText "ok"), none⟩)
          [true, true, true, false, false]
          (initC [⟨1, 3, "a", .jnull⟩, ⟨2, 3, "b", .jnull⟩])).queue = []) :=
  ⟨by decide,
   invocation_stream_fifo_drained_response_last mcpCallback
     [⟨1, 3, "a", .jnull⟩, ⟨2, 3, "b", .jnull⟩]
     (some ⟨.jnum 7, some (.contentText "ok"), none⟩)
     [true, true, true, false, false] (by decide)⟩

/-- C3 counterexample: the router does not key on the absence of `id` — an
inbound message with no `id` whose method is `tools/list` still gets a
response (with a `null` id), so "any message whose id is absent returns null"
is false on the code. -/
theorem id_absent_still_answered_cx :
    (handle_request { id := .jnull, method := .jstr "tools/list", params := {} }
        true).2 ≠ none := by
  decide

theorem searchBranch_ok_id (rid query stepsV : JVal) (hc : Bool) (tok : JVal) :
    ∀ r, (searchBranch rid query stepsV hc tok).2 = .ok r → r.id = rid := by
  intro r hr
  unfold searchBranch at hr
  rcases hsi : pyToInt stepsV with e | steps <;> rw [hsi] at hr
  · simp at hr
  · rcases hre : pyReplace query " " "-" with e | qd <;> rw [hre] at hr
    · simp at hr
    · simp only [Except.ok.injEq] at hr
      rw [← hr]

theorem callToolBody_ok_id (rid tool_name : JVal)
    (args : List (String × JVal)) (hc : Bool) (tok : JVal) :
    ∀ r, (callToolBody rid tool_name args hc tok).2 = .ok r → r.id = rid := by
  intro r hr
  unfold callToolBody at hr
  by_cases h1 : tool_name = .jstr "add_numbers"
  · rw [if_pos h1] at hr
    simp only [] at hr
    rcases ha : pyAdd (pyGet args "a" (.jnum 0)) (pyGet args "b" (.jnum 0))
      with e | v <;> rw [ha] at hr
    · simp at hr
    · simp only [Except.ok.injEq] at hr
      rw [← hr]
  · rw [if_neg h1] at hr
    by_cases h2 : tool_name = .jstr "multiply_numbers"
    · rw [if_pos h2] at hr
      simp only [] at hr
      rcases hm : pyMul (pyGet args "x" (.jnum 0)) (pyGet args "y" (.jnum 0))
        with e | v <;> rw [hm] at hr
      · simp at hr
      · simp only [Except.ok.injEq] at hr
        rw [← hr]
    · rw [if_neg h2] at hr
      by_cases h3 : tool_name = .jstr "get_greeting"
      · rw [if_pos h3] at hr
        simp only [Except.ok.injEq] at hr
        rw [← hr]
      · rw [if_neg h3] at hr
        by_cases h4 : tool_name = .jstr "search_with_progress"
        · rw [if_pos h4] at hr
          exact searchBranch_ok_id rid (pyGet args "query" (.jstr ""))
            (pyGet args "steps" (.jnum 5)) hc tok r hr
        · rw [if_neg h4] at hr
          simp only [Except.ok.injEq] at hr
          rw [← hr]

/-- Every branch of `handle_call_tool` — the four tools, the unknown-tool
error and the `-32603` exception handler — echoes the request id. -/
theorem handle_call_tool_id (rid tool_name : JVal)
    (args : List (String × JVal)) (hc : Bool) (tok : JVal) :
    (handle_call_tool rid tool_name args hc tok).2.id = rid := by
  rw [handle_call_tool]
  rcases hb : (callToolBody rid tool_name args hc tok).2 with e | r
  · rfl
  · exact callToolBody_ok_id rid tool_name args hc tok r hb

/-- For every method other than `notifications/initialized`, `handle_request`
returns a response, and that response echoes the message's id
(`message.get("id")`, i.e. `null` when the key is absent). -/
theorem handle_request_some_id (m : Message) (hc : Bool)
    (hm : m.method ≠ .jstr "notifications/initialized") :
    ∃ r, (handle_request m hc).2 = some r ∧ r.id = m.id := by
  by_cases h1 : m.method = .jstr "initialize"
  · exact ⟨ handle_initialize m.id, by simp [handle_request, h1], rfl⟩
  · by_cases h2 : m.method = .jstr "tools/list"
    · exact ⟨handle_list_tools m.id, by simp [handle_request, h1, h2], rfl⟩
    · by_cases h3 : m.method = .jstr "tools/call"
      · refine ⟨(handle_call_tool m.id m.params.name m.params.arguments hc
            (pyGet m.params.meta "progressToken" .jnull)).2, ?_, ?_⟩
        · simp [handle_request, h1, h2, h3]
        · exact handle_call_tool_id m.id m.params.name m.params.arguments hc
            (pyGet m.params.meta "progressToken" .jnull)
      · refine ⟨⟨m.id, none, some ⟨-32601, "Method not found: " ++ pyStr m.method⟩⟩,
          ?_, rfl⟩
        simp [handle_request, h1, h2, h3, hm]

/-- C3 amended: `handle_request` returns `None` exactly for the method
`notifications/initialized` (regardless of the message's `id`); for such a
message nothing at all is emitted on the stream; and for every other method —
in particular any message whose `id` key is absent — a response is returned
that echoes the (then null) id and is emitted as the last event of the
invocation's stream. -/
theorem notifications_initialized_silent (m : Message) (hc : Bool)
    (cb : ProgressCall → Notification) (sched : List Bool)
    (hs : (crun cb (handle_request m hc).2 sched
            (initC (handle_request m hc).1)).phase = .stopped) :
    ((handle_request m hc).2 = none ↔ m.method = .jstr "notifications/initialized")
    ∧ (m.method = .jstr "notifications/initialized" →
        handle_request m hc = ([], none)
        ∧ (crun cb (handle_request m hc).2 sched
            (initC (handle_request m hc).1)).out = [])
    ∧ (m.method ≠ .jstr "notifications/initialized" →
        ∃ r, (handle_request m hc).2 = some r
          ∧ (m.id = .jnull → r.id = .jnull)
          ∧ (crun cb (handle_request m hc).2 sched
              (initC (handle_request m hc).1)).out
            = emittedAll cb (handle_request m hc).1 ++ [.responseEv r]) := by
  refine ⟨?_, ?_, ?_⟩
  · constructor
    · intro hn
      by_contra hm
      obtain ⟨r, hr, _⟩ := handle_request_some_id m hc hm
      rw [hr] at hn
      exact Option.noConfusion hn
    · intro hm
      simp [handle_request, hm]
  · intro hm
    have hr : handle_request m hc = ([], none) := by
      simp [handle_request, hm]
    refine ⟨hr, ?_⟩
    have h2 := (crun_spec cb (handle_request m hc).1 (handle_request m hc).2
      sched hs).1
    rw [hr] at h2 ⊢
    simpa [emittedAll, optRespEvents] using h2
  · intro hm
    obtain ⟨r, hr, hid⟩ := handle_request_some_id m hc hm
    refine ⟨r, hr, fun hn => by rw [hid, hn], ?_⟩
    have h2 := (crun_spec cb (handle_request m hc).1 (handle_request m hc).2
      sched hs).1
    rw [h2, hr]
    rfl

theorem notifications_initialized_silent_witness :
    (handle_request initializedMsg true = ([], none)
     ∧ (crun mcpCallback (handle_request initializedMsg true).2 [true, false, false]
         (initC (handle_request initializedMsg true).1)).out = [])
    ∧ (∃ r, (handle_request nullIdMsg true).2 = some r
        ∧ (nullIdMsg.id = .jnull → r.id = .jnull)
        ∧ (crun mcpCallback (handle_request nullIdMsg true).2 [true, false, false]
            (initC (handle_request nullIdMsg true).1)).out
          = emittedAll mcpCallback (handle_request nullIdMsg true).1
            ++ [.responseEv r]) :=
  ⟨(notifications_initialized_silent initializedMsg true mcpCallback
      [true, false, false] (by decide)).2.1 rfl,
   (notifications_initialized_silent nullIdMsg true mcpCallback
      [true, false, false] (by decide)).2.2 (by decide)⟩

/-- C10: the `inputSchema` of `add_numbers` declares `a` and `b` required
(and that of `multiply_numbers` declares `x` and `y` required), yet a
`tools/call` with an empty `arguments` object is not rejected: each missing
operand defaults to 0, yielding `result.content[0].text` of `"0 + 0 = 0"`
resp. `"0 × 0 = 0"` — the schema's required properties are never enforced. -/
theorem required_args_not_enforced (request_id : JVal) (hc : Bool) (tok : JVal) :
    (mcpTools.find? (fun t => t.name = "add_numbers")).map ToolDesc.required
        = some ["a", "b"]
    ∧ (mcpTools.find? (fun t => t.name = "multiply_numbers")).map ToolDesc.required
        = some ["x", "y"]
    ∧ handle_call_tool request_id (.jstr "add_numbers") [] hc tok
        = ([], ⟨request_id, some (.contentText "0 + 0 = 0"), none⟩)
    ∧ handle_call_tool request_id (.jstr "multiply_numbers") [] hc tok
        = ([], ⟨request_id, some (.contentText "0 × 0 = 0"), none⟩) :=
  ⟨rfl, rfl, rfl, rfl⟩

/-- C5: every exception raised while executing a tool handler inside the
`try` block of `handle_call_tool` is caught there and converted into a
JSON-RPC error response with code `-32603` and message
`Tool execution error: ...` echoing the request id; since
`handle_call_tool` is a total function into `Response`, no handler exception
propagates to the transport. -/
theorem tool_exception_converted (request_id tool_name : JVal)
    (arguments : List (String × JVal)) (hc : Bool) (tok : JVal) (e : String)
    (h : (callToolBody request_id tool_name arguments hc tok).2 = .error e) :
    handle_call_tool request_id tool_name arguments hc tok
      = ((callToolBody request_id tool_name arguments hc tok).1,
         ⟨request_id, none, some ⟨-32603, "Tool execution error: " ++ e⟩⟩) := by
  simp only [handle_call_tool, h]

theorem tool_exception_converted_witness :
    (callToolBody (.jnum 9) (.jstr "add_numbers") [("a", .jstr "x")] true .jnull).2
        = .error "TypeError: unsupported operand types for +: str and int"
    ∧ handle_call_tool (.jnum 9) (.jstr "add_numbers") [("a", .jstr "x")] true .jnull
      = ((callToolBody (.jnum 9) (.jstr "add_numbers") [("a", .jstr "x")] true .jnull).1,
         ⟨.jnum 9, none, some ⟨-32603,
           "Tool execution error: TypeError: unsupported operand types for +: str and int"⟩⟩) :=
  ⟨rfl,
   tool_exception_converted (.jnum 9) (.jstr "add_numbers") [("a", .jstr "x")]
     true .jnull "TypeError: unsupported operand types for +: str and int" rfl⟩

/-- C6: an unknown method yields a `-32601` error response
`Method not found: ...`, and a `tools/call` naming a tool outside the
registry yields a `-32601` error response `Unknown tool: ...`; in both cases
the request id is echoed and exactly one of `result` / `error` is present
(here: no `result`, one `error`). -/
theorem unknown_method_and_unknown_tool (m₁ m₂ : Message) (hc : Bool)
    (h₁ : m₁.method ∉ ([.jstr "initialize", .jstr "tools/list", .jstr "tools/call",
        .jstr "notifications/initialized"] : List JVal))
    (h₂ : m₂.method = .jstr "tools/call")
    (h₃ : m₂.params.name ∉ ([.jstr "add_numbers", .jstr "multiply_numbers",
        .jstr "get_greeting", .jstr "search_with_progress"] : List JVal)) :
    handle_request m₁ hc
      = ([], some ⟨m₁.id, none, some ⟨-32601, "Method not found: " ++ pyStr m₁.method⟩⟩)
    ∧ handle_request m₂ hc
      = ([], some ⟨m₂.id, none, some ⟨-32601, "Unknown tool: " ++ pyStr m₂.params.name⟩⟩) := by
  simp only [List.mem_cons, List.not_mem_nil, or_false, not_or] at h₁ h₃
  obtain ⟨n₁, n₂, n₃, n₄⟩ := h₁
  obtain ⟨t₁, t₂, t₃, t₄⟩ := h₃
  constructor
  · simp [handle_request, n₁, n₂, n₃, n₄]
  · simp [handle_request, h₂, handle_call_tool, callToolBody, t₁, t₂, t₃, t₄]

theorem unknown_method_and_unknown_tool_witness :
    (({ id := .jnum 3, method := .jstr "foo" } : Message).method
        ∉ ([.jstr "initialize", .jstr "tools/list", .jstr "tools/call",
            .jstr "notifications/initialized"] : List JVal))
    ∧ (({ id := .jnum 4, method := .jstr "tools/call",
          params := { name := .jstr "bar" } } : Message).method = .jstr "tools/call")
    ∧ (({ id := .jnum 4, method := .jstr "tools/call",
          params := { name := .jstr "bar" } } : Message).params.name
        ∉ ([.jstr "add_numbers", .jstr "multiply_numbers", .jstr "get_greeting",
            .jstr "search_with_progress"] : List JVal))
    ∧ (handle_request { id := .jnum 3, method := .jstr "foo" } true
        = ([], some ⟨.jnum 3, none, some ⟨-32601, "Method not found: foo"⟩⟩)
       ∧ handle_request
           { id := .jnum 4, method := .jstr "tools/call",
             params := { name := .jstr "bar" } } true
         = ([], some ⟨.jnum 4, none, some ⟨-32601, "Unknown tool: bar"⟩⟩)) :=
  ⟨by decide, rfl, by decide,
   unknown_method_and_unknown_tool
     { id := .jnum 3, method := .jstr "foo" }
     { id := .jnum 4, method := .jstr "tools/call", params := { name := .jstr "bar" } }
     true (by decide) rfl (by decide)⟩

/-- Every progress-callback call made while executing the tool branches of
`handle_call_tool` carries exactly the `progress_token` the router passed in:
the only emitting branch, `search_with_progress`, passes it through
verbatim. -/
theorem searchBranch_token_eq (request_id query stepsV : JVal) (hc : Bool)
    (tok : JVal) :
    ∀ pc ∈ (searchBranch request_id query stepsV hc tok).1, pc.token = tok := by
  intro pc hmem
  unfold searchBranch at hmem
  rcases hsi : pyToInt stepsV with e | steps <;> rw [hsi] at hmem
  · simp at hmem
  · rcases hre : pyReplace query " " "-" with e | qd <;> rw [hre] at hmem
    · simp at hmem
    · cases hc with
      | false => simp at hmem
      | true =>
        simp only [List.mem_map, if_true, List.mem_range] at hmem
        obtain ⟨i, _, hpc⟩ := hmem
        rw [← hpc]

theorem callToolBody_token_eq (request_id tool_name : JVal)
    (arguments : List (String × JVal)) (hc : Bool) (tok : JVal) :
    ∀ pc ∈ (callToolBody request_id tool_name arguments hc tok).1,
      pc.token = tok := by
  intro pc hmem
  unfold callToolBody at hmem
  by_cases h1 : tool_name = .jstr "add_numbers"
  · rw [if_pos h1] at hmem
    simp only [] at hmem
    rcases ha : pyAdd (pyGet arguments "a" (.jnum 0)) (pyGet arguments "b" (.jnum 0))
      with e | r <;> rw [ha] at hmem <;> simp at hmem
  · rw [if_neg h1] at hmem
    by_cases h2 : tool_name = .jstr "multiply_numbers"
    · rw [if_pos h2] at hmem
      simp only [] at hmem
      rcases hm : pyMul (pyGet arguments "x" (.jnum 0)) (pyGet arguments "y" (.jnum 0))
        with e | r <;> rw [hm] at hmem <;> simp at hmem
    · rw [if_neg h2] at hmem
      by_cases h3 : tool_name = .jstr "get_greeting"
      · rw [if_pos h3] at hmem; simp at hmem
      · rw [if_neg h3] at hmem
        by_cases h4 : tool_name = .jstr "search_with_progress"
        · rw [if_pos h4] at hmem
          exact searchBranch_token_eq request_id (pyGet arguments "query" (.jstr ""))
            (pyGet arguments "steps" (.jnum 5)) hc tok pc hmem
        · rw [if_neg h4] at hmem; simp at hmem

/-- Every progress-callback call made during `handle_request` carries the
token extracted from `params._meta.progressToken`. -/
theorem handle_request_token_eq (m : Message) (hc : Bool) :
    ∀ pc ∈ (handle_request m hc).1,
      pc.token = pyGet m.params.meta "progressToken" .jnull := by
  intro pc hmem
  unfold handle_request at hmem
  by_cases h1 : m.method = .jstr "initialize"
  · simp [h1] at hmem
  · by_cases h2 : m.method = .jstr "tools/list"
    · simp [h1, h2] at hmem
    · by_cases h3 : m.method = .jstr "tools/call"
      · simp only [h1, h2, h3, if_true, if_false, ite_true, ite_false] at hmem
        refine callToolBody_token_eq m.id m.params.name m.params.arguments hc
          (pyGet m.params.meta "progressToken" .jnull) pc ?_
        rw [handle_call_tool] at hmem
        rcases hb : (callToolBody m.id m.params.name m.params.arguments hc
            (pyGet m.params.meta "progressToken" .jnull)).2 with e | r <;>
          rw [hb] at hmem <;> simpa using hmem
      · by_cases h4 : m.method = .jstr "notifications/initialized"
        · simp [h1, h2, h3, h4] at hmem
        · simp [h1, h2, h3, h4] at hmem

/-- C4: for a `tools/call` whose `params._meta.progressToken` key is absent,
every progress notification either transport's progress callback builds omits
the `progressToken` key entirely from its `params` object (rather than
including it with a `null` value): the key is not among the notification's
keys. -/
theorem absent_token_key_omitted (m : Message) (hc : Bool) (pc : ProgressCall)
    (h₁ : lookupKey m.params.meta "progressToken" = none)
    (h₂ : pc ∈ (handle_request m hc).1) :
    "progressToken" ∉ (mcpCallback pc).params.map Prod.fst
    ∧ "progressToken" ∉ (sseCallback pc).params.map Prod.fst := by
  have ht : pc.token = .jnull := by
    rw [handle_request_token_eq m hc pc h₂, pyGet, h₁]
    rfl
  constructor
  · simp [mcpCallback, ht]
  · simp [sseCallback, delKey, ht]

theorem absent_token_key_omitted_witness :
    lookupKey searchNoTokenMsg.params.meta "progressToken" = none
    ∧ (⟨1, 2, "🔍 **검색 시작** - `` 키워드 수신", .jnull⟩ : ProgressCall)
        ∈ (handle_request searchNoTokenMsg true).1
    ∧ ("progressToken"
          ∉ (mcpCallback ⟨1, 2, "🔍 **검색 시작** - `` 키워드 수신", .jnull⟩).params.map Prod.fst
       ∧ "progressToken"
          ∉ (sseCallback ⟨1, 2, "🔍 **검색 시작** - `` 키워드 수신", .jnull⟩).params.map Prod.fst) :=
  ⟨rfl, by decide,
   absent_token_key_omitted searchNoTokenMsg true
     ⟨1, 2, "🔍 **검색 시작** - `` 키워드 수신", .jnull⟩ rfl (by decide)⟩

/-- C2: a `tools/call` of `search_with_progress` with `steps = 3` and a
present (non-null) `progressToken` produces exactly 3 progress notifications
with `progress` values 1, 2, 3 in that order and `total = 4` in each; each
emitted notification carries a `progressToken` entry equal to the request's
token; the final event carries the successful result; and under every
terminating schedule of the `/mcp` composer all 3 notifications precede the
final result event on the stream. -/
theorem search_three_progress_before_result (tok : JVal) (sched : List Bool)
    (h₁ : tok ≠ .jnull)
    (h₂ : (crun mcpCallback (handle_request (searchCallMsg tok) true).2 sched
            (initC (handle_request (searchCallMsg tok) true).1)).phase = .stopped) :
    (handle_request (searchCallMsg tok) true).1.map
        (fun c => (c.progress, c.total, c.token))
      = [(1, 4, tok), (2, 4, tok), (3, 4, tok)]
    ∧ (handle_request (searchCallMsg tok) true).1.map
        (fun c => lookupKey (mcpCallback c).params "progressToken")
      = [some tok, some tok, some tok]
    ∧ ((handle_request (searchCallMsg tok) true).2.map Response.error) = some none
    ∧ (crun mcpCallback (handle_request (searchCallMsg tok) true).2 sched
        (initC (handle_request (searchCallMsg tok) true).1)).out
      = emittedAll mcpCallback (handle_request (searchCallMsg tok) true).1
        ++ optRespEvents (handle_request (searchCallMsg tok) true).2 := by
  have hcb : ∀ p t msg, mcpCallback ⟨p, t, msg, tok⟩
      = ⟨[("progress", .jnum p), ("total", .jnum t), ("message", .jstr msg),
          ("progressToken", tok)]⟩ := by
    intro p t msg
    simp [mcpCallback, h₁]
  have hcalls : (handle_request (searchCallMsg tok) true).1
      = [⟨1, 4, (progressMessages "").getD 0 "", tok⟩,
         ⟨2, 4, (progressMessages "").getD 1 "", tok⟩,
         ⟨3, 4, (progressMessages "").getD 2 "", tok⟩] := rfl
  refine ⟨rfl, ?_, rfl, (crun_spec _ _ _ sched h₂).1⟩
  rw [hcalls]
  simp only [List.map_cons, List.map_nil, hcb]
  rfl

theorem search_three_progress_before_result_witness :
    (JVal.jstr "T" ≠ JVal.jnull
     ∧ (crun mcpCallback (handle_request (searchCallMsg (.jstr "T")) true).2
          [true, true, true, true, false, false]
          (initC (handle_request (searchCallMsg (.jstr "T")) true).1)).phase
        = .stopped)
    ∧ ((handle_request (searchCallMsg (.jstr "T")) true).1.map
          (fun c => (c.progress, c.total, c.token))
        = [(1, 4, .jstr "T"), (2, 4, .jstr "T"), (3, 4, .jstr "T")]
       ∧ (handle_request (searchCallMsg (.jstr "T")) true).1.map
           (fun c => lookupKey (mcpCallback c).params "progressToken")
         = [some (.jstr "T"), some (.jstr "T"), some (.jstr "T")]
       ∧ ((handle_request (searchCallMsg (.jstr "T")) true).2.map Response.error)
         = some none
       ∧ (crun mcpCallback (handle_request (searchCallMsg (.jstr "T")) true).2
           [true, true, true, true, false, false]
           (initC (handle_request (searchCallMsg (.jstr "T")) true).1)).out
         = emittedAll mcpCallback (handle_request (searchCallMsg (.jstr "T")) true).1
           ++ optRespEvents (handle_request (searchCallMsg (.jstr "T")) true).2) :=
  ⟨⟨by decide, by decide⟩,
   search_three_progress_before_result (.jstr "T")
     [true, true, true, true, false, false] (by decide) (by decide)⟩

/-- C7 counterexample: the handler parses the body before looking up the
session, so a POST with an unknown session id and an invalid JSON body gets
HTTP 400, not the claimed 404 — "if sessionId is not a key the handler raises
404" is false on the code as universally stated. -/
theorem message_endpoint_404_cx :
    (receive_message initServer "s1" (.error "bad")).2
      ≠ .httpError 404 "Session not found" := by
  decide

/-- C7 amended: for a POST whose body parses as JSON, an unregistered session
id yields HTTP 404 `Session not found` with the registries (and every
session's queues) left unchanged, while a registered id gets the parsed
message appended to exactly that session's inbound queue and an immediate
`202 accepted` — the outcome does not depend on any processing of the
message, and the other registries are untouched. -/
theorem message_endpoint_routes (st : ServerState) (sid : String) (m : Message) :
    (sid ∉ keysOf st.session_queues →
      receive_message st sid (.ok m) = (st, .httpError 404 "Session not found"))
    ∧ (sid ∈ keysOf st.session_queues →
      (receive_message st sid (.ok m)).2 = .accepted
      ∧ (receive_message st sid (.ok m)).1.session_queues
          = enqueueKey st.session_queues sid m
      ∧ (receive_message st sid (.ok m)).1.session_sse_queues
          = st.session_sse_queues
      ∧ (receive_message st sid (.ok m)).1.session_response_queues
          = st.session_response_queues) := by
  constructor
  · intro h
    simp [receive_message, h]
  · intro h
    simp [receive_message, h]

theorem message_endpoint_routes_witness :
    ("a" ∈ keysOf (⟨[("a", [])], [], [("a", [])]⟩ : ServerState).session_queues)
    ∧ ((receive_message ⟨[("a", [])], [], [("a", [])]⟩ "a" (.ok initializedMsg)).2
        = .accepted
      ∧ (receive_message ⟨[("a", [])], [], [("a", [])]⟩ "a" (.ok initializedMsg)).1.session_queues
        = enqueueKey (⟨[("a", [])], [], [("a", [])]⟩ : ServerState).session_queues
            "a" initializedMsg
      ∧ (receive_message ⟨[("a", [])], [], [("a", [])]⟩ "a" (.ok initializedMsg)).1.session_sse_queues
        = (⟨[("a", [])], [], [("a", [])]⟩ : ServerState).session_sse_queues
      ∧ (receive_message ⟨[("a", [])], [], [("a", [])]⟩ "a" (.ok initializedMsg)).1.session_response_queues
        = (⟨[("a", [])], [], [("a", [])]⟩ : ServerState).session_response_queues) :=
  ⟨by decide,
   (message_endpoint_routes ⟨[("a", [])], [], [("a", [])]⟩ "a" initializedMsg).2
     (by decide)⟩

theorem keysOf_replaceVal {α : Type} (l : List (String × α)) (k : String)
    (v : α) :
    keysOf (l.map (fun kv => if kv.1 = k then (k, v) else kv)) = keysOf l := by
  induction l with
  | nil => rfl
  | cons kv t ih =>
    by_cases h : kv.1 = k <;> simp [keysOf, h] at ih ⊢ <;> exact ih

theorem keysOf_setKey {α : Type} (l : List (String × α)) (k : String) (v : α) :
    keysOf (setKey l k v)
      = if k ∈ keysOf l then keysOf l else keysOf l ++ [k] := by
  unfold setKey
  split
  · rw [keysOf_replaceVal]
  · simp [keysOf]

theorem keysOf_filterKey {α : Type} (l : List (String × α)) (k : String) :
    keysOf (l.filter (fun kv => kv.1 ≠ k))
      = (keysOf l).filter (fun x => x ≠ k) := by
  induction l with
  | nil => rfl
  | cons kv t ih =>
    by_cases h : kv.1 = k <;> simp [keysOf, h, List.filter] at ih ⊢ <;> exact ih

theorem keysOf_removeKey {α : Type} (l : List (String × α)) (k : String) :
    keysOf (removeKey l k) = (keysOf l).filter (fun x => x ≠ k) := by
  unfold removeKey
  split
  · exact keysOf_filterKey l k
  · rename_i h
    rw [eq_comm, List.filter_eq_self]
    intro x hx
    have hxk : x ≠ k := by
      intro he
      exact h (he ▸ hx)
    simpa using hxk

theorem keysOf_enqueueKey {α : Type} (l : List (String × List α)) (k : String)
    (v : α) : keysOf (enqueueKey l k v) = keysOf l := by
  induction l with
  | nil => rfl
  | cons kv t ih =>
    by_cases h : kv.1 = k <;> simp [keysOf, enqueueKey, h] at ih ⊢ <;> exact ih

theorem keysOf_popKey {α : Type} (l : List (String × List α)) (k : String) :
    keysOf (popKey l k) = keysOf l := by
  induction l with
  | nil => rfl
  | cons kv t ih =>
    by_cases h : kv.1 = k <;> simp [keysOf, popKey, h] at ih ⊢ <;> exact ih

theorem applyS_keys_eq (st : ServerState) (a : SStep)
    (h : keysOf st.session_queues = keysOf st.session_sse_queues) :
    keysOf (applyS st a).session_queues
      = keysOf (applyS st a).session_sse_queues := by
  cases a with
  | connect sid =>
    simp only [applyS, keysOf_setKey, h]
  | cleanup sid =>
    simp only [applyS, keysOf_removeKey, h]
  | post sid body =>
    cases body with
    | error e => simpa [applyS, receive_message] using h
    | ok m =>
      by_cases hm : sid ∈ keysOf st.session_queues
      · simpa [applyS, receive_message, hm, keysOf_enqueueKey] using h
      · simpa [applyS, receive_message, hm] using h
  | takeInbound sid => simpa [applyS, keysOf_popKey] using h
  | putProgress sid n => simpa [applyS, keysOf_enqueueKey] using h
  | takeProgress sid => simpa [applyS, keysOf_popKey] using h

theorem foldl_applyS_keys_eq (tr : List SStep) (st : ServerState)
    (h : keysOf st.session_queues = keysOf st.session_sse_queues) :
    keysOf (tr.foldl applyS st).session_queues
      = keysOf (tr.foldl applyS st).session_sse_queues := by
  induction tr generalizing st with
  | nil => simpa using h
  | cons a tr ih =>
    rw [List.foldl_cons]
    exact ih (applyS st a) (applyS_keys_eq st a h)

theorem removeKey_not_mem {α : Type} (l : List (String × α)) (k : String)
    (h : k ∉ keysOf l) : removeKey l k = l := by
  simp [removeKey, h]

theorem removeKey_idem {α : Type} (l : List (String × α)) (k : String) :
    removeKey (removeKey l k) k = removeKey l k := by
  refine removeKey_not_mem _ _ ?_
  rw [keysOf_removeKey]
  simp

/-- C8: along every execution trace (SSE connects, cleanups, side-channel
POSTs and the queue reads/writes of the event generators), a session id is a
key of the inbound-queue registry `session_queues` iff it is a key of the
progress-queue registry `session_sse_queues` — the two queues are created
together on connect and removed together by cleanup — and the cleanup
transition is idempotent: running it twice for the same session equals
running it once, whichever path triggered it. -/
theorem session_registries_paired (tr : List SStep) :
    keysOf (runS tr).session_queues = keysOf (runS tr).session_sse_queues
    ∧ ∀ (st : ServerState) (sid : String),
        applyS (applyS st (.cleanup sid)) (.cleanup sid)
          = applyS st (.cleanup sid) := by
  constructor
  · exact foldl_applyS_keys_eq tr initServer rfl
  · intro st sid
    obtain ⟨q, r, s⟩ := st
    simp [applyS, removeKey_idem]

theorem fileCount_cons (p : GPayload) (ps : List GPayload) :
    fileCount (p :: ps)
      = (if p.source = .jstr "FILE" then 1 else 0) + fileCount ps := by
  by_cases h : p.source = .jstr "FILE" <;>
    simp [fileCount, h, List.filter_cons, Nat.add_comm]

theorem isStr_exists {v : JVal} (h : v.isStr = true) : ∃ s, v = .jstr s := by
  cases v with
  | jstr s => exact ⟨s, rfl⟩
  | jnull => simp [JVal.isStr] at h
  | jnum n => simp [JVal.isStr] at h
  | jbool b => simp [JVal.isStr] at h

theorem guardrail_count_step (c : Nat) (p : GPayload) (s : String)
    (hs : p.text = .jstr s) :
    (guardrail_endpoint c p).1
      = c + (if p.source = .jstr "FILE" then 1 else 0) := by
  by_cases h : p.source = .jstr "FILE"
  · simp only [guardrail_endpoint, hs, pySliceStr, h, ite_true]
    split <;> rfl
  · simp only [guardrail_endpoint, hs, pySliceStr, h, ite_false]
    split <;> rfl

theorem runG_count (c : Nat) (ps : List GPayload)
    (hw : ∀ p ∈ ps, p.text.isStr = true) :
    (runG c ps).2 = c + fileCount ps := by
  induction ps generalizing c with
  | nil => simp [runG, fileCount]
  | cons p ps ih =>
    have hstep : (runG c (p :: ps)).2 = (runG (guardrail_endpoint c p).1 ps).2 := rfl
    obtain ⟨s, hs⟩ := isStr_exists (hw p (by simp))
    rw [hstep, ih (guardrail_endpoint c p).1
        (fun q hq => hw q (List.mem_cons_of_mem p hq)),
      guardrail_count_step c p s hs, fileCount_cons]
    omega

theorem runG_nth (c : Nat) (ps : List GPayload) (i : Nat) (h : i < ps.length)
    (hw : ∀ p ∈ ps, p.text.isStr = true) :
    (runG c ps).1.get? i
      = some ((guardrail_endpoint (c + fileCount (ps.take i))
          (ps.get ⟨i, h⟩)).2) := by
  induction ps generalizing c i with
  | nil => simp at h
  | cons p ps ih =>
    have hstep : (runG c (p :: ps)).1
        = (guardrail_endpoint c p).2 :: (runG (guardrail_endpoint c p).1 ps).1 := rfl
    cases i with
    | zero =>
      rw [hstep]
      simp [fileCount]
    | succ j =>
      have hj : j < ps.length := by simpa using h
      obtain ⟨s, hs⟩ := isStr_exists (hw p (by simp))
      rw [hstep, List.get?_cons_succ,
        ih (guardrail_endpoint c p).1 j hj
          (fun q hq => hw q (List.mem_cons_of_mem p hq))]
      have harg : (guardrail_endpoint c p).1 + fileCount (ps.take j)
          = c + fileCount ((p :: ps).take (j + 1)) := by
        rw [guardrail_count_step c p s hs, List.take_succ_cons, fileCount_cons]
        omega
      rw [harg]
      rfl

/-- C9: across any sequence of `/guardrail` requests carrying a string
`text` (the shape the endpoint's request schema prescribes — a non-string
`text` would already raise at the logging line, yielding HTTP 500 and leaving
the counter untouched), the response to a request with `source = FILE` is the
blocked `GUARDRAIL_INTERVENED / is_safe: false` payload (which carries a
`blocked_reasons` object) exactly when its 1-indexed position among all FILE
requests — the value of the single global counter — is even, and the safe
`NONE / is_safe: true` payload when it is odd; requests with any other source
never advance the counter, whose final value is the number of FILE requests
processed. -/
theorem guardrail_file_alternation (ps : List GPayload) (i : Nat)
    (hw : ∀ p ∈ ps, p.text.isStr = true)
    (h₁ : i < ps.length) (h₂ : (ps.get ⟨i, h₁⟩).source = .jstr "FILE") :
    (runG 0 ps).1.get? i
      = some (.ok (if fileCount (ps.take (i + 1)) % 2 = 0
          then fileBlockedResp else safeResp))
    ∧ (runG 0 ps).2 = fileCount ps := by
  refine ⟨?_, by simpa using runG_count 0 ps hw⟩
  rw [runG_nth 0 ps i h₁ hw]
  have h₂g : ps[i].source = .jstr "FILE" := h₂
  obtain ⟨s, hs⟩ := isStr_exists (hw (ps.get ⟨i, h₁⟩) (List.get_mem ps i h₁))
  have htake : fileCount (ps.take (i + 1)) = fileCount (ps.take i) + 1 := by
    rw [List.take_succ, List.getElem?_eq_getElem h₁]
    rw [fileCount, fileCount, List.filter_append, List.length_append]
    simp only [Option.toList_some, List.filter_cons, h₂g, decide_True, ite_true,
      List.filter_nil, List.length_cons, List.length_nil]
  rw [htake]
  simp only [guardrail_endpoint, hs, pySliceStr, h₂, ite_true, Nat.zero_add]
  split <;> rfl

theorem guardrail_file_alternation_witness :
    ((∀ p ∈ guardrailDemoCalls, p.text.isStr = true)
     ∧ 2 < guardrailDemoCalls.length
     ∧ (guardrailDemoCalls.get ⟨2, by decide⟩).source = .jstr "FILE")
    ∧ ((runG 0 guardrailDemoCalls).1.get? 2
        = some (.ok (if fileCount (guardrailDemoCalls.take (2 + 1)) % 2 = 0
            then fileBlockedResp else safeResp))
       ∧ (runG 0 guardrailDemoCalls).2 = fileCount guardrailDemoCalls) :=
  ⟨⟨by decide, by decide, by decide⟩,
   guardrail_file_alternation guardrailDemoCalls 2 (by decide) (by decide) (by decide)⟩

end MCPApp
